import Mathlib

/-
Verification development for the AtomToolsAI "Ad Copy Generator App".

This file shallowly embeds the parts of the program that the verified
properties talk about:

  * `services/cache_service.py`  — the tiered cache (`CacheService.get`,
    `CacheService.set`, `delete`, `clear`, `get_or_set`, and the
    `cache_result` decorator's wrapper body);
  * `services/openai_service.py` — the generation client: the tenacity
    `@retry` decorator (`stop_after_attempt(Config.MAX_RETRIES)`,
    `wait_exponential(multiplier=1, min=2, max=10)`) wrapped around
    `generate_ad_copy` / `generate_seo_content`, whose bodies catch every
    exception and return `None`, and the `_parse_ad_copy_response` helper;
  * `app.py`                     — the bulk processor `process_bulk_seo_csv`
    and the report writer `create_seo_csv`;
  * `services/tasks.py`          — the progress values emitted through
    `self.update_state(meta={'current': ...})` by the async job handlers.

Machine time is a `Nat` number of seconds (a simulated clock passed to each
operation, standing for `time.time()`).  External collaborators (the Redis
connection, the network, `json.loads`) are parameters of the embedded
functions; a Boolean `redisOk` stands for "operations on the connected Redis
client complete without raising".
-/

/-- A JSON-serializable Python value, as stored in the cache.  `PyVal.none` is
Python's `None` (JSON `null`).  `json.dumps` of any such value is a non-empty
string and `json.loads` inverts it, so the Redis tier is modelled as storing
the value itself; the truthiness test `if value:` on the serialized string is
always true when a (non-expired) entry is present. -/
inductive PyVal where
  | none : PyVal
  | bool (b : Bool) : PyVal
  | int (n : Int) : PyVal
  | str (s : String) : PyVal
  | strList (xs : List String) : PyVal
deriving DecidableEq, Repr

/-- One stored entry: value together with its absolute expiry time.
For the Redis tier the expiry is `setTime + ttl` (the `setex` argument);
for the `cachetools.TTLCache` tier it is `insertTime + 3600`, the TTL fixed
at construction (`TTLCache(maxsize=1000, ttl=3600)`). -/
abbrev CacheDB := List (String × PyVal × Nat)

/-- First entry for a key, expired or not. -/
def findEntry (db : CacheDB) (k : String) : Option (PyVal × Nat) :=
  (db.find? (fun e => e.1 == k)).map (fun e => e.2)

/-- Remove every entry for a key. -/
def eraseEntry (db : CacheDB) (k : String) : CacheDB :=
  db.filter (fun e => !(e.1 == k))

/-- Lookup honouring expiry: an entry is visible while `now < expiry`
(both Redis `GET` after `SETEX` and `TTLCache.__contains__` hide an entry
once its expiry time has been reached). -/
def liveLookup (now : Nat) (db : CacheDB) (k : String) : Option PyVal :=
  match findEntry db k with
  | Option.none => Option.none
  | some (v, exp) => if now < exp then some v else Option.none

/-- Insert with absolute expiry `now + ttl`, replacing any previous entry. -/
def insertEntry (now ttl : Nat) (db : CacheDB) (k : String) (v : PyVal) : CacheDB :=
  (k, v, now + ttl) :: eraseEntry db k

/-- The mutable state of `CacheService` (`cache_service.py`, `__init__`):
`redis_client` records whether the Redis connection was established at
construction (`self.redis_client is not None`); `redisDB` is the entire
contents of the connected Redis database (which may also hold keys written
by other applications); `memory_cache` is the `TTLCache`; `lru_cache` the
`LRUCache` (written only by `clear`). -/
structure CacheState where
  redis_client : Bool
  redisDB : CacheDB
  memory_cache : CacheDB
  lru_cache : List (String × PyVal)
deriving DecidableEq, Repr

namespace CacheService

/-- Body of the `try:` block of `CacheService.get`: consult Redis first
(`value = self.redis_client.get(key); if value: return json.loads(value)`),
fall through to the memory cache, else the default.  When the client exists
but the store is unreachable (`redisOk = false`) the Redis call raises. -/
def get_inner (redisOk : Bool) (now : Nat) (st : CacheState) (key : String)
    (default : PyVal) : Except String PyVal :=
  if st.redis_client then
    if redisOk then
      match liveLookup now st.redisDB key with
      | some v => Except.ok v
      | Option.none =>
        match liveLookup now st.memory_cache key with
        | some v => Except.ok v
        | Option.none => Except.ok default
    else Except.error "connection refused"
  else
    match liveLookup now st.memory_cache key with
    | some v => Except.ok v
    | Option.none => Except.ok default

/-- `CacheService.get`: the `except Exception` clause returns the default. -/
def get (redisOk : Bool) (now : Nat) (st : CacheState) (key : String)
    (default : PyVal := PyVal.none) : PyVal :=
  match get_inner redisOk now st key default with
  | Except.ok v => v
  | Except.error _ => default

/-- Body of the `try:` block of `CacheService.set`: with a Redis client the
value is serialized and written with `setex(key, ttl, ...)` and the function
returns `True` at once — the memory cache is only reached when
`self.redis_client` is `None` (the fallback branch). -/
def set_inner (redisOk : Bool) (now : Nat) (st : CacheState) (key : String)
    (value : PyVal) (ttl : Nat) : Except String (Bool × CacheState) :=
  if st.redis_client then
    if redisOk then
      Except.ok (true, { st with redisDB := insertEntry now ttl st.redisDB key value })
    else Except.error "connection refused"
  else
    Except.ok (true, { st with memory_cache := insertEntry now 3600 st.memory_cache key value })

/-- `CacheService.set`: the `except Exception` clause returns `False`,
leaving the state unchanged (the value reached no tier). -/
def set (redisOk : Bool) (now : Nat) (st : CacheState) (key : String)
    (value : PyVal) (ttl : Nat := 3600) : Bool × CacheState :=
  match set_inner redisOk now st key value ttl with
  | Except.ok r => r
  | Except.error _ => (false, st)

/-- `CacheService.delete`: best-effort removal from both tiers;
`False` when the Redis delete raises. -/
def delete (redisOk : Bool) (st : CacheState) (key : String) : Bool × CacheState :=
  if st.redis_client && !redisOk then (false, st)
  else
    (true, { st with
             redisDB := (if st.redis_client then eraseEntry st.redisDB key else st.redisDB)
             memory_cache := eraseEntry st.memory_cache key })

/-- `CacheService.clear`: with a client, `flushdb()` empties the entire
configured Redis database; then both in-process stores are cleared.  If the
flush raises, the `except` clause fires before the in-process stores are
touched and `False` is returned. -/
def clear (redisOk : Bool) (st : CacheState) : Bool × CacheState :=
  if st.redis_client && !redisOk then (false, st)
  else
    (true, { redis_client := st.redis_client
             redisDB := (if st.redis_client then [] else st.redisDB)
             memory_cache := []
             lru_cache := [] })

/-- Result of one call through `get_or_set` or a `cache_result`-wrapped
function: returned value, cache state afterwards, and whether the underlying
function was invoked. -/
structure CallResult where
  value : PyVal
  state : CacheState
  invoked : Bool
deriving DecidableEq, Repr

/-- `CacheService.get_or_set`: `value = self.get(key)`; only `if value is
None` is the producer run and its result written. -/
def get_or_set (redisOk : Bool) (now : Nat) (st : CacheState) (key : String)
    (default_func : Unit → PyVal) (ttl : Nat := 3600) : CallResult :=
  let value := get redisOk now st key
  if value = PyVal.none then
    let value := default_func ()
    let r := set redisOk now st key value ttl
    { value := value, state := r.2, invoked := true }
  else { value := value, state := st, invoked := false }

/-- Body of the wrapper produced by the `CacheService.cache_result`
decorator, at a fixed cache key (`_generate_key` is a deterministic digest
of the wrapped function's name and arguments): `cached_result =
self.get(cache_key); if cached_result is not None: return cached_result`,
otherwise invoke the function and `set` its result. -/
def cache_result_call (redisOk : Bool) (now : Nat) (st : CacheState)
    (cache_key : String) (func : Unit → PyVal) (ttl : Nat := 3600) : CallResult :=
  let cached_result := get redisOk now st cache_key
  if cached_result ≠ PyVal.none then
    { value := cached_result, state := st, invoked := false }
  else
    let result := func ()
    let r := set redisOk now st cache_key result ttl
    { value := result, state := r.2, invoked := true }

/-- The value an entry for `key` currently maps to in the tier that `set`
writes (ignoring expiry): the Redis database when a client exists, the
in-process store otherwise. -/
def storedValue (st : CacheState) (key : String) : Option PyVal :=
  if st.redis_client then (findEntry st.redisDB key).map (fun e => e.1)
  else (findEntry st.memory_cache key).map (fun e => e.1)

end CacheService

/-- The opening brace character (written via its code point to keep string
literals plain). -/
def lbrace : Char := Char.ofNat 123

/-- The closing brace character. -/
def rbrace : Char := Char.ofNat 125

/-- Outcome of one call to the external generation capability
(`openai.ChatCompletion.create` followed by `.choices[0].message.content
.strip()`): either the call raises (a transient network / rate-limit /
timeout error) or it returns a response whose message content is the given
text. -/
inductive ApiOutcome where
  | raises (msg : String) : ApiOutcome
  | returns (content : String) : ApiOutcome
deriving DecidableEq, Repr

/-- Generated SEO payload: the `{'titles': [...], 'descriptions': [...]}`
dictionary. -/
structure SeoContent where
  titles : List String
  descriptions : List String
deriving DecidableEq, Repr

/-- The SEO `content_type` request parameter (`'titles'`, `'descriptions'`,
`'both'`). -/
inductive ContentType where
  | titles : ContentType
  | descriptions : ContentType
  | both : ContentType
deriving DecidableEq, Repr

namespace OpenAIService

/-- `Config.MAX_RETRIES` with its default (`int(os.getenv('MAX_RETRIES',
'3'))`). -/
def MAX_RETRIES : Nat := 3

/-- `content[content.find(lbrace) : content.rfind(rbrace) + 1]` — the slice
both parse helpers cut out of the free-form response before handing it to
`json.loads`. -/
def jsonSlice (content : String) : String :=
  let cs := content.toList
  let start := cs.findIdx (fun c => c == lbrace)
  let stop := cs.length - 1 - (cs.reverse.findIdx (fun c => c == rbrace))
  String.mk ((cs.drop start).take (stop + 1 - start))

/-- `OpenAIService._parse_ad_copy_response`, with `json.loads` as an opaque
collaborator (`jsonLoads s = Option.none` models a raised `JSONDecodeError`,
which the helper's `except` clause turns into `None`).  Without both braces
in the content the helper logs a warning and returns `None`. -/
def _parse_ad_copy_response (jsonLoads : String → Option PyVal)
    (content : String) : Option PyVal :=
  if content.toList.contains lbrace && content.toList.contains rbrace then
    jsonLoads (jsonSlice content)
  else Option.none

/-- The parsed object as `_parse_seo_response` inspects it: whether a
`'titles'` (resp. `'descriptions'`) key is present, and its list value. -/
structure SeoParsed where
  titles : Option (List String)
  descriptions : Option (List String)
deriving DecidableEq, Repr

/-- `OpenAIService._parse_seo_response`: extract the brace-delimited slice,
`json.loads` it, then shape the result according to `content_type`; any
missing expected key (outside `'both'`) or parse failure yields `None`. -/
def _parse_seo_response (jsonLoads : String → Option SeoParsed)
    (content : String) (content_type : ContentType) : Option SeoContent :=
  if content.toList.contains lbrace && content.toList.contains rbrace then
    match jsonLoads (jsonSlice content) with
    | Option.none => Option.none
    | some parsed =>
      match content_type with
      | ContentType.titles =>
        match parsed.titles with
        | some ts => some { titles := ts, descriptions := [] }
        | Option.none => Option.none
      | ContentType.descriptions =>
        match parsed.descriptions with
        | some ds => some { titles := [], descriptions := ds }
        | Option.none => Option.none
      | ContentType.both =>
        some { titles := parsed.titles.getD [], descriptions := parsed.descriptions.getD [] }
  else Option.none

/-- The retry loop of tenacity's `@retry(stop=stop_after_attempt(n), ...)`:
run the decorated body on attempt numbers `1, 2, ...`; a body that RAISES is
retried while attempts remain and a `RetryError` propagates once they are
exhausted; a body that RETURNS (whatever it returns) ends the loop at once.
The result is paired with the number of attempts made. -/
def retryCall {A : Type} (body : Nat → Except String A) :
    Nat → Nat → Except String A × Nat
  | attempt, fuel =>
    match body attempt with
    | Except.ok a => (Except.ok a, attempt)
    | Except.error e =>
      match fuel with
      | 0 => (Except.error ("RetryError: " ++ e), attempt)
      | Nat.succ f => retryCall body (attempt + 1) f

/-- `stop_after_attempt n` around a body: at most `n` attempts. -/
def stop_after_attempt_run {A : Type} (n : Nat) (body : Nat → Except String A) :
    Except String A × Nat :=
  retryCall body 1 (n - 1)

/-- `wait_exponential(multiplier=1, min=2, max=10)`: the sleep tenacity
inserts before retry number `k` (in seconds), `max(lo, min(hi, m * 2^k))`. -/
def wait_exponential (m lo hi : Nat) (k : Nat) : Nat :=
  max lo (min hi (m * 2 ^ k))

/-- The body of `OpenAIService.generate_ad_copy` as the decorator sees it:
everything sits inside `try: ... except Exception: return None`, so the body
NEVER raises — an API exception and a parse failure alike yield a returned
`None`. -/
def generate_ad_copy_body (jsonLoads : String → Option PyVal)
    (api : Nat → ApiOutcome) (attempt : Nat) : Except String (Option PyVal) :=
  Except.ok (match api attempt with
    | ApiOutcome.raises _ => Option.none
    | ApiOutcome.returns content => _parse_ad_copy_response jsonLoads content)

/-- `OpenAIService.generate_ad_copy` with its decorator: outcome plus the
number of attempts actually made (= times the external capability was
invoked). -/
def generate_ad_copy (jsonLoads : String → Option PyVal)
    (api : Nat → ApiOutcome) : Except String (Option PyVal) × Nat :=
  stop_after_attempt_run MAX_RETRIES (generate_ad_copy_body jsonLoads api)

/-- The body of `OpenAIService.generate_seo_content` as the decorator sees
it: same `try/except` shape as `generate_ad_copy_body`. -/
def generate_seo_content_body (jsonLoads : String → Option SeoParsed)
    (api : Nat → ApiOutcome) (content_type : ContentType) (attempt : Nat) :
    Except String (Option SeoContent) :=
  Except.ok (match api attempt with
    | ApiOutcome.raises _ => Option.none
    | ApiOutcome.returns content => _parse_seo_response jsonLoads content content_type)

/-- `OpenAIService.generate_seo_content` with its decorator. -/
def generate_seo_content (jsonLoads : String → Option SeoParsed)
    (api : Nat → ApiOutcome) (content_type : ContentType) :
    Except String (Option SeoContent) × Nat :=
  stop_after_attempt_run MAX_RETRIES (generate_seo_content_body jsonLoads api content_type)

/-- The same call under the retry policy the decorator is CONFIGURED with,
i.e. what `stop_after_attempt(Config.MAX_RETRIES)` would see if the API
exception reached it instead of being swallowed by the body's
`except Exception` clause first. -/
def generate_ad_copy_raw (jsonLoads : String → Option PyVal)
    (api : Nat → ApiOutcome) : Except String (Option PyVal) × Nat :=
  stop_after_attempt_run MAX_RETRIES (fun attempt =>
    match api attempt with
    | ApiOutcome.raises e => Except.error e
    | ApiOutcome.returns content => Except.ok (_parse_ad_copy_response jsonLoads content))

end OpenAIService

/-- One parsed CSV input row of the bulk SEO pipeline: the `url` and
`keywords` columns (missing cells read as the empty string) and the optional
`brand_name` column. -/
structure BulkRowIn where
  url : String
  keywords : String
  brand_name : Option String
deriving DecidableEq, Repr

/-- One entry of the result list built by `process_bulk_seo_csv`: either the
success dictionary `{'url', 'keywords', 'brand_name', 'titles',
'descriptions'}` or the failure dictionary `{'url', 'error'}`. -/
inductive RowOutcome where
  | success (url keywords brand_name : String) (content : SeoContent) : RowOutcome
  | failure (url : String) (error : String) : RowOutcome
deriving DecidableEq, Repr

/-- External collaborators of one bulk row, each allowed to raise
(`Except.error` models a raised exception, which the per-row `except
Exception` clause catches): `fetch` is `fetch_url_content` (returns `None`
on a handled fetch failure), `extract` is `extract_text_from_html`, and
`gen` is the app-level `generate_seo_content` applied to the extracted text
and the row's keywords and brand. -/
structure RowEnv where
  fetch : String → Except String (Option String)
  extract : String → Except String String
  gen : String → String → String → Except String SeoContent

/-- The body of one iteration of the row loop in `process_bulk_seo_csv`
(`app.py`): empty url or keywords short-circuit to a `'Missing URL or
keywords'` failure; a `None` fetch gives the `'Failed to fetch content from
URL'` failure; a raised exception anywhere in the body is caught and
recorded as a failure carrying `str(e)`; otherwise the success dictionary is
appended. -/
def processRow (env : RowEnv) (default_brand_name : String) (row : BulkRowIn) :
    RowOutcome :=
  let url := row.url
  let keywords := row.keywords
  let brand_name := row.brand_name.getD default_brand_name
  if url ≠ "" ∧ keywords ≠ "" then
    match env.fetch url with
    | Except.error e => RowOutcome.failure url e
    | Except.ok Option.none => RowOutcome.failure url "Failed to fetch content from URL"
    | Except.ok (some html) =>
      match env.extract html with
      | Except.error e => RowOutcome.failure url e
      | Except.ok text =>
        match env.gen text keywords brand_name with
        | Except.error e => RowOutcome.failure url e
        | Except.ok seo => RowOutcome.success url keywords brand_name seo
  else RowOutcome.failure url "Missing URL or keywords"

/-- `process_bulk_seo_csv` after CSV parsing: the row loop appends exactly
one outcome per row, in `df.iterrows()` order. -/
def process_bulk_seo_csv (env : RowEnv) (default_brand_name : String)
    (rows : List BulkRowIn) : List RowOutcome :=
  rows.map (processRow env default_brand_name)

/-- `'error' in result` for a result dictionary. -/
def RowOutcome.isError : RowOutcome → Bool
  | RowOutcome.failure _ _ => true
  | RowOutcome.success _ _ _ _ => false

/-- `create_seo_csv` helpers: the maximum number of titles over all result
dictionaries that carry a `'titles'` list (failure dictionaries carry
none). -/
def maxTitles (results : List RowOutcome) : Nat :=
  results.foldl (fun m r => match r with
    | RowOutcome.success _ _ _ c => max m c.titles.length
    | RowOutcome.failure _ _ => m) 0

/-- Maximum number of descriptions over all result dictionaries. -/
def maxDescriptions (results : List RowOutcome) : Nat :=
  results.foldl (fun m r => match r with
    | RowOutcome.success _ _ _ c => max m c.descriptions.length
    | RowOutcome.failure _ _ => m) 0

/-- `content_type in ['both', 'titles']`. -/
def includeTitles : ContentType → Bool
  | ContentType.both => true
  | ContentType.titles => true
  | ContentType.descriptions => false

/-- `content_type in ['both', 'descriptions']`. -/
def includeDescriptions : ContentType → Bool
  | ContentType.both => true
  | ContentType.descriptions => true
  | ContentType.titles => false

/-- Pad a list with `''` up to length `n`, then slice to `n` elements
(`while len(xs) < n: xs.append(''); row.extend(xs[:n])`). -/
def padTo (xs : List String) (n : Nat) : List String :=
  (xs ++ List.replicate (n - xs.length) "").take n

/-- The header row written by `create_seo_csv`: three fixed columns, then
`Title i` columns up to `maxTitles` and `Description i` columns up to
`maxDescriptions`, each block gated by the content type. -/
def csvHeader (results : List RowOutcome) (content_type : ContentType) :
    List String :=
  ["URL", "Keywords", "Brand Name"]
    ++ (if includeTitles content_type then
          (List.range (maxTitles results)).map (fun i => "Title " ++ toString (i + 1))
        else [])
    ++ (if includeDescriptions content_type then
          (List.range (maxDescriptions results)).map
            (fun i => "Description " ++ toString (i + 1))
        else [])

/-- The data row `create_seo_csv` writes for one result dictionary.  A
failure row is `[url, 'ERROR', result.get('brand_name', ''), error]` (the
failure dictionaries built by the bulk processor carry no `'brand_name'`
key, so the third cell is `''`) followed by empty padding for each gated
content block; a success row is the three fixed cells followed by the
titles and descriptions padded to the shared maxima. -/
def csvRow (mT mD : Nat) (content_type : ContentType) : RowOutcome → List String
  | RowOutcome.failure url e =>
    [url, "ERROR", "", e]
      ++ (if includeTitles content_type then List.replicate mT "" else [])
      ++ (if includeDescriptions content_type then List.replicate mD "" else [])
  | RowOutcome.success url keywords brand_name c =>
    [url, keywords, brand_name]
      ++ (if includeTitles content_type then padTo c.titles mT else [])
      ++ (if includeDescriptions content_type then padTo c.descriptions mD else [])

/-- `create_seo_csv` (`app.py`), at the level of rows of cells (the
`csv.writer` serializes each list of cells as one CSV line).  An empty
result list gets the fixed two-line placeholder report. -/
def create_seo_csv (results : List RowOutcome) (content_type : ContentType) :
    List (List String) :=
  match results with
  | [] =>
    [["URL", "Keywords", "Brand Name", "Error"],
     ["No data", "No data", "No data", "No results generated"]]
  | _ :: _ =>
    csvHeader results content_type
      :: results.map (csvRow (maxTitles results) (maxDescriptions results) content_type)

namespace Tasks

/-- The progress values (`meta['current']` of each `self.update_state` call)
emitted by `generate_ad_copy_async` (`services/tasks.py`), paired with the
`'success'` field of the returned dictionary.  The two Booleans say whether
`sanitize_input` respectively `OpenAIService()` raise (a raised exception
jumps to the handler's `except` clause, which returns a failure dictionary
without further updates); `genResult` is what `generate_ad_copy` returns. -/
def generate_ad_copy_async (sanitizeRaises serviceInitRaises : Bool)
    (genResult : Option PyVal) : List Nat × Bool :=
  if sanitizeRaises then ([0], false)
  else if serviceInitRaises then ([0, 25], false)
  else ([0, 25, 50, 90], genResult.isSome)

/-- `generate_seo_content_async`: identical emission structure. -/
def generate_seo_content_async (sanitizeRaises serviceInitRaises : Bool)
    (genResult : Option SeoContent) : List Nat × Bool :=
  if sanitizeRaises then ([0], false)
  else if serviceInitRaises then ([0, 25], false)
  else ([0, 25, 50, 90], genResult.isSome)

/-- The progress value `process_bulk_csv_async` emits before processing row
`index` of `total`: `int((index / total) * 80) + 10`.  Division is exact
rational arithmetic floored to a natural number; the Python source computes
the same value through binary floating point, which cannot disturb the
properties proved below (monotonicity in `index`, and the `≤ 90` bound,
which holds for every float rounding of a ratio `≤ 1`). -/
def bulkRowProgress (total index : Nat) : Nat :=
  index * 80 / total + 10

/-- The progress values emitted by `process_bulk_csv_async` on a CSV that
parses into `total` rows (`csvParses = false` models `pd.read_csv` raising,
which jumps to the handler's `except` clause after the first update): `0`,
then one pre-row update per row, then `95` — the handler never emits `100`. -/
def process_bulk_csv_async (csvParses : Bool) (total : Nat) : List Nat :=
  if csvParses then
    0 :: ((List.range total).map (bulkRowProgress total) ++ [95])
  else [0]

end Tasks

/-! Concrete cache states used by witnesses and counterexamples. -/

/-- A fresh service whose Redis connection failed at construction
(in-process-only tier). -/
def emptyMemState : CacheState :=
  { redis_client := false, redisDB := [], memory_cache := [], lru_cache := [] }

/-- A fresh service with a connected, empty Redis database. -/
def emptyRedisState : CacheState :=
  { redis_client := true, redisDB := [], memory_cache := [], lru_cache := [] }

/-- A connected service whose Redis database and in-process store disagree on
key `"k"`. -/
def mixedState : CacheState :=
  { redis_client := true
    redisDB := [("k", PyVal.str "redis", 100)]
    memory_cache := [("k", PyVal.str "mem", 100)]
    lru_cache := [] }

/-- Claim C1: a generation call whose external call always fails transiently
is claimed to be attempted exactly `MAX_RETRIES` (3) times with
non-decreasing backoff and then fail terminally, and a call succeeding on
attempt 2 to invoke the capability exactly twice.  The code invokes the
capability exactly once and returns `None`: the body's `except Exception`
clause swallows the transient error before tenacity's `@retry` can see it,
so the retry policy the decorator is configured with
(`stop_after_attempt(Config.MAX_RETRIES)`, `wait_exponential`) is dead code.
The last three conjuncts show that the configured policy, had the exception
reached it, would have produced exactly the claimed behaviour — the claim
matches the code's declared intent and the code is the slip. -/
theorem C1_retry_swallowed :
    OpenAIService.generate_ad_copy (fun _ => Option.none)
      (fun _ => ApiOutcome.raises "timeout") = (Except.ok Option.none, 1)
  ∧ OpenAIService.generate_seo_content (fun _ => Option.none)
      (fun _ => ApiOutcome.raises "timeout") ContentType.both
      = (Except.ok Option.none, 1)
  ∧ (1 : Nat) ≠ OpenAIService.MAX_RETRIES
  ∧ OpenAIService.generate_ad_copy_raw (fun _ => Option.none)
      (fun _ => ApiOutcome.raises "timeout")
      = (Except.error "RetryError: timeout", OpenAIService.MAX_RETRIES)
  ∧ (OpenAIService.generate_ad_copy_raw (fun _ => some (PyVal.str "parsed"))
      (fun i => if i = 1 then ApiOutcome.raises "timeout"
                else ApiOutcome.returns (String.mk [lbrace, rbrace]))).2 = 2
  ∧ Monotone (OpenAIService.wait_exponential 1 2 10) := by
  refine ⟨rfl, rfl, by decide, rfl, rfl, ?_⟩
  intro a b hab
  exact max_le_max le_rfl (min_le_min le_rfl
    (Nat.mul_le_mul_left 1 (Nat.pow_le_pow_right (by norm_num) hab)))

/-! Small lookup lemmas shared by the cache theorems. -/

/-- A freshly inserted entry is the one found for its key. -/
theorem findEntry_insert (now ttl : Nat) (db : CacheDB) (k : String) (v : PyVal) :
    findEntry (insertEntry now ttl db k v) k = some (v, now + ttl) := by
  simp [findEntry, insertEntry]

/-- A fresh entry is visible while its TTL has not elapsed. -/
theorem liveLookup_insert_live (now ttl now2 : Nat) (db : CacheDB) (k : String)
    (v : PyVal) (h : now2 < now + ttl) :
    liveLookup now2 (insertEntry now ttl db k v) k = some v := by
  simp [liveLookup, findEntry_insert, h]

/-- A fresh entry is hidden once its TTL has elapsed. -/
theorem liveLookup_insert_dead (now ttl now2 : Nat) (db : CacheDB) (k : String)
    (v : PyVal) (h : now + ttl ≤ now2) :
    liveLookup now2 (insertEntry now ttl db k v) k = Option.none := by
  simp [liveLookup, findEntry_insert]
  omega

/-- An absent key stays invisible at every time. -/
theorem liveLookup_of_findEntry_none (now : Nat) (db : CacheDB) (k : String)
    (h : findEntry db k = Option.none) : liveLookup now db k = Option.none := by
  simp [liveLookup, h]

/-- Claim C3 counterexample: with the external store unavailable
(in-process-only tier), `set("k", "v", ttl=1)` at time 0 followed by
`get("k")` at time 2 — after the one-second TTL has elapsed — still returns
`"v"`, not the absent default: the `TTLCache` was constructed with a fixed
3600-second TTL and the `ttl` argument of `set` never reaches it. -/
theorem C3_counterexample :
    CacheService.get true 2
      (CacheService.set true 0 emptyMemState "k" (PyVal.str "v") 1).2 "k"
      = PyVal.str "v"
  ∧ PyVal.str "v" ≠ PyVal.none := ⟨rfl, by decide⟩

/-- Claim C3 (amended): `set(K, V, t); get(K)` returns `V` immediately in
both tiers.  Once `t` has elapsed, `get(K)` returns the absent default in
the external-store tier (where `setex` honours `t`); in the in-process-only
tier the `ttl` argument is ignored — the entry instead expires after the
fixed 3600-second TTL of the `TTLCache`, so `get(K)` still returns `V`
before 3600 seconds have passed and returns the default only after. -/
theorem C3_amended (st : CacheState) (key : String) (v : PyVal)
    (ttl now now2 : Nat) (httl : 0 < ttl) :
    CacheService.get true now (CacheService.set true now st key v ttl).2 key = v
  ∧ (st.redis_client = true → now + ttl ≤ now2 →
      liveLookup now2 st.memory_cache key = Option.none →
      CacheService.get true now2 (CacheService.set true now st key v ttl).2 key
        = PyVal.none)
  ∧ (st.redis_client = false → now2 < now + 3600 →
      CacheService.get true now2 (CacheService.set true now st key v ttl).2 key = v)
  ∧ (st.redis_client = false → now + 3600 ≤ now2 →
      CacheService.get true now2 (CacheService.set true now st key v ttl).2 key
        = PyVal.none) := by
  refine ⟨?_, ?_, ?_, ?_⟩
  · by_cases hc : st.redis_client
    · simp [CacheService.set, CacheService.set_inner, hc, CacheService.get,
            CacheService.get_inner, liveLookup_insert_live now ttl now _ _ _ (by omega)]
    · simp [CacheService.set, CacheService.set_inner, hc, CacheService.get,
            CacheService.get_inner, liveLookup_insert_live now 3600 now _ _ _ (by omega)]
  · intro hc helapsed hmem
    simp [CacheService.set, CacheService.set_inner, hc, CacheService.get,
          CacheService.get_inner, liveLookup_insert_dead now ttl now2 _ _ _ helapsed, hmem]
  · intro hc hlive
    simp [CacheService.set, CacheService.set_inner, hc, CacheService.get,
          CacheService.get_inner, liveLookup_insert_live now 3600 now2 _ _ _ (by omega)]
  · intro hc helapsed
    simp [CacheService.set, CacheService.set_inner, hc, CacheService.get,
          CacheService.get_inner, liveLookup_insert_dead now 3600 now2 _ _ _ (by omega)]

/-- Claim C3 amended-theorem witness: concrete instantiations of
`C3_amended` in both tiers. -/
theorem C3_amended_witness :
    CacheService.get true 7 (CacheService.set true 7 emptyRedisState "k"
      (PyVal.str "v") 5).2 "k" = PyVal.str "v"
  ∧ CacheService.get true 12 (CacheService.set true 7 emptyRedisState "k"
      (PyVal.str "v") 5).2 "k" = PyVal.none
  ∧ CacheService.get true 3599 (CacheService.set true 0 emptyMemState "k"
      (PyVal.str "v") 5).2 "k" = PyVal.str "v"
  ∧ CacheService.get true 3600 (CacheService.set true 0 emptyMemState "k"
      (PyVal.str "v") 5).2 "k" = PyVal.none := by
  refine ⟨(C3_amended emptyRedisState "k" (PyVal.str "v") 5 7 12 (by decide)).1,
          (C3_amended emptyRedisState "k" (PyVal.str "v") 5 7 12 (by decide)).2.1
            rfl (by decide) rfl,
          (C3_amended emptyMemState "k" (PyVal.str "v") 5 0 3599 (by decide)).2.2.1
            rfl (by decide),
          (C3_amended emptyMemState "k" (PyVal.str "v") 5 0 3600 (by decide)).2.2.2
            rfl (by decide)⟩

/-- Claim C4 counterexample: with the external store available, `set` writes
the value to Redis and returns at once — nothing is written to the
in-process store, which stays empty, so the claimed unconditional local
mirror does not exist. -/
theorem C4_counterexample :
    (CacheService.set true 0 emptyRedisState "k" (PyVal.str "v") 10).1 = true
  ∧ (CacheService.set true 0 emptyRedisState "k" (PyVal.str "v") 10).2.redisDB
      = [("k", PyVal.str "v", 10)]
  ∧ (CacheService.set true 0 emptyRedisState "k" (PyVal.str "v") 10).2.memory_cache
      = []
  ∧ findEntry
      (CacheService.set true 0 emptyRedisState "k" (PyVal.str "v") 10).2.memory_cache
      "k" = Option.none := ⟨rfl, rfl, rfl, rfl⟩

/-- Claim C4 (amended): `set(key, value, ttl)` writes the value to the
external store when it is available and leaves the in-process store
untouched; the in-process store is written only in the fallback case where
no external client exists.  The write is a fallback, not a mirror. -/
theorem C4_amended (st : CacheState) (key : String) (v : PyVal) (ttl now : Nat) :
    (st.redis_client = true →
        (CacheService.set true now st key v ttl).2.redisDB
          = insertEntry now ttl st.redisDB key v
      ∧ (CacheService.set true now st key v ttl).2.memory_cache
          = st.memory_cache)
  ∧ (st.redis_client = false →
        (CacheService.set true now st key v ttl).2.memory_cache
          = insertEntry now 3600 st.memory_cache key v
      ∧ (CacheService.set true now st key v ttl).2.redisDB = st.redisDB) := by
  constructor
  · intro hc
    simp [CacheService.set, CacheService.set_inner, hc]
  · intro hc
    simp [CacheService.set, CacheService.set_inner, hc]

/-- Claim C4 amended-theorem witness. -/
theorem C4_amended_witness :
    (CacheService.set true 0 emptyRedisState "k" (PyVal.str "v") 10).2.memory_cache
      = emptyRedisState.memory_cache
  ∧ (CacheService.set true 0 emptyMemState "k" (PyVal.str "v") 10).2.memory_cache
      = insertEntry 0 3600 emptyMemState.memory_cache "k" (PyVal.str "v") := by
  exact ⟨((C4_amended emptyRedisState "k" (PyVal.str "v") 10 0).1 rfl).2,
         ((C4_amended emptyMemState "k" (PyVal.str "v") 10 0).2 rfl).1⟩

/-- Claim C5 counterexample: a mid-lifetime external-store failure is
absorbed (`set` returns `False` with the state unchanged), but the cache is
NOT downgraded to the in-process-only tier for the remainder of the process:
the client is dropped only at construction, so the very next `get` against a
recovered store consults Redis again and answers from it — not from the
in-process tier, which holds a different value for the same key. -/
theorem C5_counterexample :
    CacheService.set false 0 mixedState "j" (PyVal.str "w") 5 = (false, mixedState)
  ∧ CacheService.get true 1 mixedState "k" = PyVal.str "redis"
  ∧ CacheService.get true 1
      { mixedState with redis_client := false } "k" = PyVal.str "mem"
  ∧ PyVal.str "redis" ≠ PyVal.str "mem"
  ∧ mixedState.redis_client = true := ⟨rfl, rfl, rfl, by decide, rfl⟩

/-- Claim C5 (amended): `get` and `set` never raise.  When the connected
external store fails mid-operation, `get` returns the default and `set`
returns `False`; the failure is absorbed with the state (including the
client, hence the tier) unchanged — nothing is written to any tier, and the
service retries the external store on each subsequent operation rather than
downgrading for the process lifetime.  Only a service whose client was
dropped at construction runs on the in-process tier, where writes are read
back regardless of external-store health. -/
theorem C5_amended (st : CacheState) (key : String) (v d : PyVal) (ttl now : Nat) :
    (st.redis_client = true →
        CacheService.get false now st key d = d
      ∧ CacheService.set false now st key v ttl = (false, st)
      ∧ (CacheService.set false now st key v ttl).2.redis_client = true)
  ∧ (st.redis_client = false →
        CacheService.get false now st key d = CacheService.get true now st key d
      ∧ CacheService.set false now st key v ttl = CacheService.set true now st key v ttl
      ∧ CacheService.get false now (CacheService.set false now st key v ttl).2 key d
          = v) := by
  constructor
  · intro hc
    refine ⟨?_, ?_, ?_⟩
    · simp [CacheService.get, CacheService.get_inner, hc]
    · simp [CacheService.set, CacheService.set_inner, hc]
    · simp [CacheService.set, CacheService.set_inner, hc]
  · intro hc
    refine ⟨?_, ?_, ?_⟩
    · simp [CacheService.get, CacheService.get_inner, hc]
    · simp [CacheService.set, CacheService.set_inner, hc]
    · simp [CacheService.get, CacheService.get_inner, CacheService.set,
            CacheService.set_inner, hc,
            liveLookup_insert_live now 3600 now _ _ _ (by omega)]

/-- Claim C5 amended-theorem witness. -/
theorem C5_amended_witness :
    CacheService.get false 1 mixedState "k" (PyVal.str "dflt") = PyVal.str "dflt"
  ∧ CacheService.set false 1 mixedState "k" (PyVal.str "w") 5 = (false, mixedState)
  ∧ CacheService.get false 2
      (CacheService.set false 2 emptyMemState "k" (PyVal.str "w") 5).2 "k"
      (PyVal.str "dflt") = PyVal.str "w" := by
  exact ⟨((C5_amended mixedState "k" (PyVal.str "w") (PyVal.str "dflt") 5 1).1 rfl).1,
         ((C5_amended mixedState "k" (PyVal.str "w") (PyVal.str "dflt") 5 1).1 rfl).2.1,
         ((C5_amended emptyMemState "k" (PyVal.str "w") (PyVal.str "dflt") 5 2).2 rfl).2.2⟩

/-- Claim C6 counterexample: a response carrying no well-formed payload (here
no braces at all, so no JSON object can be extracted) does not make the call
fail with a `GenerationParseError` after all retries.  No such error type
exists in the program: the parse helper returns `None`, the body returns it
as an ordinary value, tenacity counts the call as a success, and the call
ends after one single attempt with result `None`. -/
theorem C6_counterexample :
    OpenAIService.generate_ad_copy (fun s => some (PyVal.str s))
      (fun _ => ApiOutcome.returns "no payload here")
      = (Except.ok Option.none, 1)
  ∧ OpenAIService.generate_seo_content (fun _ => some ⟨some [], some []⟩)
      (fun _ => ApiOutcome.returns "no payload here") ContentType.both
      = (Except.ok Option.none, 1)
  ∧ (1 : Nat) ≠ OpenAIService.MAX_RETRIES := ⟨rfl, rfl, by decide⟩

/-- Claim C6 (amended): a generation call whose response contains no
well-formed structured payload returns `None` on its first attempt: the
parse helper yields `None` (warning logged), the surrounding `try` block
returns it, and no exception, retry or distinguished parse-error type is
involved. -/
theorem C6_amended (jsonLoads : String → Option PyVal)
    (loadsSeo : String → Option OpenAIService.SeoParsed)
    (api : Nat → ApiOutcome) (content_type : ContentType) (c : String)
    (h1 : api 1 = ApiOutcome.returns c)
    (h2 : OpenAIService._parse_ad_copy_response jsonLoads c = Option.none)
    (h3 : OpenAIService._parse_seo_response loadsSeo c content_type = Option.none) :
    OpenAIService.generate_ad_copy jsonLoads api = (Except.ok Option.none, 1)
  ∧ OpenAIService.generate_seo_content loadsSeo api content_type
      = (Except.ok Option.none, 1) := by
  constructor
  · simp [OpenAIService.generate_ad_copy, OpenAIService.stop_after_attempt_run,
          OpenAIService.retryCall, OpenAIService.generate_ad_copy_body, h1, h2]
  · simp [OpenAIService.generate_seo_content, OpenAIService.stop_after_attempt_run,
          OpenAIService.retryCall, OpenAIService.generate_seo_content_body, h1, h3]

/-- Claim C6 amended-theorem witness. -/
theorem C6_amended_witness :
    OpenAIService.generate_ad_copy (fun s => some (PyVal.str s))
      (fun _ => ApiOutcome.returns "plain text")
      = (Except.ok Option.none, 1)
  ∧ OpenAIService.generate_seo_content (fun _ => some ⟨some [], some []⟩)
      (fun _ => ApiOutcome.returns "plain text") ContentType.titles
      = (Except.ok Option.none, 1) :=
  C6_amended (fun s => some (PyVal.str s)) (fun _ => some ⟨some [], some []⟩)
    (fun _ => ApiOutcome.returns "plain text") ContentType.titles "plain text"
    rfl rfl rfl

/-- A key absent from both stores misses: `get` returns `None` whatever the
client and external-store health. -/
theorem get_none_of_absent (redisOk : Bool) (now : Nat) (st : CacheState)
    (key : String)
    (hmem : findEntry st.memory_cache key = Option.none)
    (hred : findEntry st.redisDB key = Option.none) :
    CacheService.get redisOk now st key = PyVal.none := by
  by_cases hc : st.redis_client <;> cases redisOk <;>
    simp [CacheService.get, CacheService.get_inner, hc,
          liveLookup_of_findEntry_none, hmem, hred]

/-- After `set(key, None)` on a state whose in-process store does not hold
the key, every later `get(key)` returns `None` — the stored `None` and the
absent default are indistinguishable. -/
theorem get_after_none_write (redisOk : Bool) (now now2 ttl : Nat)
    (st : CacheState) (key : String)
    (hmem : findEntry st.memory_cache key = Option.none) :
    CacheService.get redisOk now2
      (CacheService.set redisOk now st key PyVal.none ttl).2 key = PyVal.none := by
  by_cases hc : st.redis_client <;> cases redisOk
  · simp [CacheService.set, CacheService.set_inner, hc, CacheService.get,
          CacheService.get_inner, liveLookup_of_findEntry_none, hmem]
  · by_cases h2 : now2 < now + ttl
    · simp [CacheService.set, CacheService.set_inner, hc, CacheService.get,
            CacheService.get_inner, liveLookup_insert_live now ttl now2 _ _ _ h2,
            liveLookup_of_findEntry_none, hmem]
    · simp [CacheService.set, CacheService.set_inner, hc, CacheService.get,
            CacheService.get_inner,
            liveLookup_insert_dead now ttl now2 _ _ _ (by omega),
            liveLookup_of_findEntry_none, hmem]
  · by_cases h2 : now2 < now + 3600
    · simp [CacheService.set, CacheService.set_inner, hc, CacheService.get,
            CacheService.get_inner, liveLookup_insert_live now 3600 now2 _ _ _ h2]
    · simp [CacheService.set, CacheService.set_inner, hc, CacheService.get,
            CacheService.get_inner,
            liveLookup_insert_dead now 3600 now2 _ _ _ (by omega)]
  · by_cases h2 : now2 < now + 3600
    · simp [CacheService.set, CacheService.set_inner, hc, CacheService.get,
            CacheService.get_inner, liveLookup_insert_live now 3600 now2 _ _ _ h2]
    · simp [CacheService.set, CacheService.set_inner, hc, CacheService.get,
            CacheService.get_inner,
            liveLookup_insert_dead now 3600 now2 _ _ _ (by omega)]

/-- Claim C9: a `None` result is never served from the cache.  On a miss the
wrapped function is invoked and its `None` result IS written to the cache
(when the write goes through), but the wrapper's `is not None` guard — and
`get_or_set`'s `is None` guard — cannot tell the stored `None` from a miss,
so every subsequent call with the same arguments re-invokes the function:
the at-most-one-invocation-per-miss behaviour fails for `None`-valued
results. -/
theorem C9_none_never_served (redisOk : Bool) (now now2 : Nat) (st : CacheState)
    (key : String) (ttl : Nat)
    (hmem : findEntry st.memory_cache key = Option.none)
    (hred : findEntry st.redisDB key = Option.none) :
    (CacheService.cache_result_call redisOk now st key
        (fun _ => PyVal.none) ttl).invoked = true
  ∧ (CacheService.cache_result_call redisOk now st key
        (fun _ => PyVal.none) ttl).value = PyVal.none
  ∧ (redisOk = true →
      CacheService.storedValue
        (CacheService.cache_result_call redisOk now st key
          (fun _ => PyVal.none) ttl).state key = some PyVal.none)
  ∧ (CacheService.cache_result_call redisOk now2
      (CacheService.cache_result_call redisOk now st key
        (fun _ => PyVal.none) ttl).state key (fun _ => PyVal.none) ttl).invoked
      = true
  ∧ (CacheService.get_or_set redisOk now2
      (CacheService.cache_result_call redisOk now st key
        (fun _ => PyVal.none) ttl).state key (fun _ => PyVal.none) ttl).invoked
      = true := by
  have hget := get_none_of_absent redisOk now st key hmem hred
  have hc1 : CacheService.cache_result_call redisOk now st key
      (fun _ => PyVal.none) ttl
      = { value := PyVal.none,
          state := (CacheService.set redisOk now st key PyVal.none ttl).2,
          invoked := true } := by
    simp [CacheService.cache_result_call, hget]
  have hget2 := get_after_none_write redisOk now now2 ttl st key hmem
  refine ⟨by rw [hc1], by rw [hc1], ?_, ?_, ?_⟩
  · intro hok
    subst hok
    rw [hc1]
    by_cases hc : st.redis_client
    · simp [CacheService.set, CacheService.set_inner, hc, CacheService.storedValue,
            findEntry_insert]
    · simp [CacheService.set, CacheService.set_inner, hc, CacheService.storedValue,
            findEntry_insert]
  · rw [hc1]
    simp [CacheService.cache_result_call, hget2]
  · rw [hc1]
    simp [CacheService.get_or_set, hget2]

/-- Claim C9 witness. -/
theorem C9_none_never_served_witness :
    (CacheService.cache_result_call true 0 emptyRedisState "k"
        (fun _ => PyVal.none) 60).invoked = true
  ∧ CacheService.storedValue
      (CacheService.cache_result_call true 0 emptyRedisState "k"
        (fun _ => PyVal.none) 60).state "k" = some PyVal.none
  ∧ (CacheService.cache_result_call true 5
      (CacheService.cache_result_call true 0 emptyRedisState "k"
        (fun _ => PyVal.none) 60).state "k" (fun _ => PyVal.none) 60).invoked
      = true := by
  have h := C9_none_never_served true 0 5 emptyRedisState "k" 60 rfl rfl
  exact ⟨h.1, h.2.2.1 rfl, h.2.2.2.1⟩

/-- Claim C10: with the external store connected, the clear-all operation
(`CacheService.clear`, exposed by the `/cache/clear` route) runs `flushdb`,
which removes EVERY key of the configured Redis database — including keys
this application's cache never wrote — and also empties both in-process
stores. -/
theorem C10_clear_flushes_entire_db (st : CacheState) (k : String)
    (hc : st.redis_client = true) :
    (CacheService.clear true st).1 = true
  ∧ (CacheService.clear true st).2.redisDB = []
  ∧ findEntry (CacheService.clear true st).2.redisDB k = Option.none
  ∧ (CacheService.clear true st).2.memory_cache = []
  ∧ (CacheService.clear true st).2.lru_cache = [] := by
  simp [CacheService.clear, hc, findEntry]

/-- A connected state whose Redis database holds a key some other
application wrote. -/
def foreignState : CacheState :=
  { redis_client := true
    redisDB := [("other_apps_key", PyVal.str "x", 999)]
    memory_cache := [("m", PyVal.str "y", 10)]
    lru_cache := [("l", PyVal.str "z")] }

/-- Claim C10 witness: the foreign key is gone after `clear`. -/
theorem C10_clear_flushes_entire_db_witness :
    (CacheService.clear true foreignState).1 = true
  ∧ findEntry (CacheService.clear true foreignState).2.redisDB "other_apps_key"
      = Option.none
  ∧ (CacheService.clear true foreignState).2.memory_cache = [] := by
  have h := C10_clear_flushes_entire_db foreignState "other_apps_key" rfl
  exact ⟨h.1, h.2.2.1, h.2.2.2.1⟩

/-- Claim C2: the bulk processor produces exactly one outcome per input row
and in input order (the output list is the pointwise image of the row loop
body, so no row's error can affect any other row), and a row whose
generation step raises is recorded as a failure carrying the raised error
message. -/
theorem C2_bulk_isolation (env : RowEnv) (d : String) (rows : List BulkRowIn) :
    (process_bulk_seo_csv env d rows).length = rows.length
  ∧ (∀ i (h : i < rows.length),
      (process_bulk_seo_csv env d rows).get
          ⟨i, by simpa [process_bulk_seo_csv] using h⟩
        = processRow env d (rows.get ⟨i, h⟩))
  ∧ (∀ (row : BulkRowIn) (e html text : String),
      row.url ≠ "" → row.keywords ≠ "" →
      env.fetch row.url = Except.ok (some html) →
      env.extract html = Except.ok text →
      env.gen text row.keywords (row.brand_name.getD d) = Except.error e →
      processRow env d row = RowOutcome.failure row.url e) := by
  refine ⟨by simp [process_bulk_seo_csv], ?_, ?_⟩
  · intro i h
    simp [process_bulk_seo_csv]
  · intro row e html text hu hk hf he hg
    simp [processRow, hu, hk, hf, he, hg]

/-- Concrete bulk collaborators for the C2 witness: the fetch of `"b"`
fails, generation on keywords `"k2"` raises `"boom"`, everything else
succeeds. -/
def witnessEnv : RowEnv :=
  { fetch := fun u => if u = "b" then Except.ok Option.none
                      else Except.ok (some "html")
    extract := fun _ => Except.ok "text"
    gen := fun _ kw _ => if kw = "k2" then Except.error "boom"
                         else Except.ok { titles := ["T"], descriptions := ["D"] } }

/-- The three input rows of the C2 witness. -/
def witnessRows : List BulkRowIn :=
  [{ url := "a", keywords := "k1", brand_name := Option.none },
   { url := "b", keywords := "k1", brand_name := Option.none },
   { url := "c", keywords := "k2", brand_name := some "Br" }]

/-- Claim C2 witness: three rows where the middle fetch fails and the last
generation raises still give three outcomes, in order, with the failure
recorded. -/
theorem C2_bulk_isolation_witness :
    (process_bulk_seo_csv witnessEnv "B" witnessRows).length = 3
  ∧ (process_bulk_seo_csv witnessEnv "B" witnessRows).get
      ⟨1, by simp [process_bulk_seo_csv, witnessRows]⟩
      = processRow witnessEnv "B" (witnessRows.get ⟨1, by simp [witnessRows]⟩)
  ∧ processRow witnessEnv "B"
      { url := "c", keywords := "k2", brand_name := some "Br" }
      = RowOutcome.failure "c" "boom" := by
  have h := C2_bulk_isolation witnessEnv "B" witnessRows
  exact ⟨by rw [h.1]; rfl, h.2.1 1 (by simp [witnessRows]),
         h.2.2 { url := "c", keywords := "k2", brand_name := some "Br" }
           "boom" "html" "text" (by decide) (by decide) rfl rfl rfl⟩

/-- Pad-then-slice always yields exactly `n` cells. -/
theorem padTo_length (xs : List String) (n : Nat) : (padTo xs n).length = n := by
  simp [padTo]
  omega

/-- Column count of the header row. -/
theorem csvHeader_length (results : List RowOutcome) (ct : ContentType) :
    (csvHeader results ct).length
      = 3 + (if includeTitles ct then maxTitles results else 0)
          + (if includeDescriptions ct then maxDescriptions results else 0) := by
  cases hT : includeTitles ct <;> cases hD : includeDescriptions ct <;>
    simp [csvHeader, hT, hD] <;> omega

/-- Column count of a success data row: three fixed cells plus the gated
padded blocks. -/
theorem csvRow_length_success (mT mD : Nat) (ct : ContentType)
    (url kw b : String) (c : SeoContent) :
    (csvRow mT mD ct (RowOutcome.success url kw b c)).length
      = 3 + (if includeTitles ct then mT else 0)
          + (if includeDescriptions ct then mD else 0) := by
  cases hT : includeTitles ct <;> cases hD : includeDescriptions ct <;>
    simp [csvRow, hT, hD, padTo_length] <;> omega

/-- Column count of a failure data row: FOUR fixed cells plus the same
padding. -/
theorem csvRow_length_failure (mT mD : Nat) (ct : ContentType)
    (url e : String) :
    (csvRow mT mD ct (RowOutcome.failure url e)).length
      = 4 + (if includeTitles ct then mT else 0)
          + (if includeDescriptions ct then mD else 0) := by
  cases hT : includeTitles ct <;> cases hD : includeDescriptions ct <;>
    simp [csvRow, hT, hD] <;> omega

/-- Claim C7 counterexample: a report consisting of one failed row.  The
header has the three fixed columns (no content columns, as no row carries
titles or descriptions), while the failure row has FOUR cells — `url`, the
`ERROR` marker, the brand cell and the error message — so a failure row does
not have the same number of columns as the header. -/
theorem C7_counterexample :
    create_seo_csv [RowOutcome.failure "u" "boom"] ContentType.both
      = [["URL", "Keywords", "Brand Name"], ["u", "ERROR", "", "boom"]]
  ∧ (["u", "ERROR", "", "boom"] : List String).length
      ≠ (["URL", "Keywords", "Brand Name"] : List String).length := ⟨rfl, by decide⟩

/-- Claim C7 (amended): the generated CSV has exactly one data row per input
row, each being the image of `csvRow` in input order; a success row holds
URL, keywords and brand followed by one cell per title/description padded to
the maxima seen across all rows, and matches the header's column count; a
failure row holds the URL, an `ERROR` marker, an (empty) brand cell and the
failure message followed by the same empty padding — one column MORE than
the header, because the error message occupies a fourth fixed cell against
the header's three. -/
theorem C7_amended (results : List RowOutcome) (ct : ContentType)
    (hne : results ≠ []) :
    (create_seo_csv results ct).length = results.length + 1
  ∧ create_seo_csv results ct
      = csvHeader results ct
          :: results.map (csvRow (maxTitles results) (maxDescriptions results) ct)
  ∧ (∀ r ∈ results, r.isError = false →
      (csvRow (maxTitles results) (maxDescriptions results) ct r).length
        = (csvHeader results ct).length)
  ∧ (∀ r ∈ results, r.isError = true →
      (csvRow (maxTitles results) (maxDescriptions results) ct r).length
        = (csvHeader results ct).length + 1) := by
  obtain ⟨a, l, rfl⟩ : ∃ a l, results = a :: l := by
    cases results with
    | nil => exact absurd rfl hne
    | cons a l => exact ⟨a, l, rfl⟩
  refine ⟨by simp [create_seo_csv], rfl, ?_, ?_⟩
  · intro r hr hsucc
    cases r with
    | success u k b c =>
      rw [csvRow_length_success, csvHeader_length]
    | failure u e => simp [RowOutcome.isError] at hsucc
  · intro r hr hfail
    cases r with
    | success u k b c => simp [RowOutcome.isError] at hfail
    | failure u e =>
      rw [csvRow_length_failure, csvHeader_length]
      omega

/-- The result list used by the C7 witness: one failed and one successful
row. -/
def witnessResults : List RowOutcome :=
  [RowOutcome.failure "u" "boom",
   RowOutcome.success "w" "kw" "B" { titles := ["T1", "T2"], descriptions := ["D1"] }]

/-- Claim C7 amended-theorem witness. -/
theorem C7_amended_witness :
    (create_seo_csv witnessResults ContentType.both).length = 3
  ∧ (csvRow (maxTitles witnessResults) (maxDescriptions witnessResults)
        ContentType.both (RowOutcome.success "w" "kw" "B"
          { titles := ["T1", "T2"], descriptions := ["D1"] })).length
      = (csvHeader witnessResults ContentType.both).length
  ∧ (csvRow (maxTitles witnessResults) (maxDescriptions witnessResults)
        ContentType.both (RowOutcome.failure "u" "boom")).length
      = (csvHeader witnessResults ContentType.both).length + 1 := by
  have h := C7_amended witnessResults ContentType.both (by simp [witnessResults])
  exact ⟨by rw [h.1]; rfl,
         h.2.2.1 _ (by simp [witnessResults]) rfl,
         h.2.2.2 _ (by simp [witnessResults]) rfl⟩

/-- A member of `getLast?` is a member of the list. -/
theorem memOfGetLastOpt {α : Type} {l : List α} {x : α} (h : x ∈ l.getLast?) :
    x ∈ l := by
  obtain ⟨hne, rfl⟩ := List.mem_getLast?_eq_getLast h
  exact List.getLast_mem hne

/-- Every per-row progress value stays at most 90 (strictly below the final
95 update). -/
theorem bulkRowProgress_le (total i : Nat) (h : i < total) :
    Tasks.bulkRowProgress total i ≤ 90 := by
  have h80 : i * 80 / total ≤ 80 := by
    calc i * 80 / total ≤ total * 80 / total :=
          Nat.div_le_div_right (Nat.mul_le_mul_right 80 (le_of_lt h))
    _ = 80 := by
          rw [Nat.mul_comm]
          exact Nat.mul_div_cancel 80 (by omega)
  simp only [Tasks.bulkRowProgress]
  omega

/-- Per-row progress is monotone in the row index. -/
theorem bulkRowProgress_mono (total : Nat) {i j : Nat} (h : i ≤ j) :
    Tasks.bulkRowProgress total i ≤ Tasks.bulkRowProgress total j := by
  have hd := Nat.div_le_div_right (c := total) (Nat.mul_le_mul_right 80 h)
  simp only [Tasks.bulkRowProgress]
  omega

/-- Members of the per-row block of the bulk trace are at most 90. -/
theorem bulk_map_le (total x : Nat)
    (hx : x ∈ (List.range total).map (Tasks.bulkRowProgress total)) : x ≤ 90 := by
  simp only [List.mem_map, List.mem_range] at hx
  obtain ⟨i, hi, rfl⟩ := hx
  exact bulkRowProgress_le total i hi

/-- Claim C8 counterexample: a fully completed, successful ad-copy job.  The
handler returns the success dictionary — the job is at a terminal state —
yet the emitted progress sequence is `[0, 25, 50, 90]`: progress never
reaches 100, at completion or ever. -/
theorem C8_counterexample :
    Tasks.generate_ad_copy_async false false (some (PyVal.str "r"))
      = ([0, 25, 50, 90], true)
  ∧ (100 : Nat) ∉ ([0, 25, 50, 90] : List Nat) := ⟨rfl, by decide⟩

/-- Claim C8 (amended): for every job handler execution the emitted progress
sequence is monotonically non-decreasing and starts at 0, and a value of 100
is never emitted before the terminal state — in fact 100 is never emitted at
all: the single-generation handlers stop at 90 and the bulk handler at 95. -/
theorem C8_amended (b1 b2 : Bool) (res : Option PyVal) (res2 : Option SeoContent)
    (csvOk : Bool) (total : Nat) :
    List.Chain' (fun a b => a ≤ b) (Tasks.generate_ad_copy_async b1 b2 res).1
  ∧ (Tasks.generate_ad_copy_async b1 b2 res).1.head? = some 0
  ∧ (∀ p ∈ (Tasks.generate_ad_copy_async b1 b2 res).1, p ≤ 90)
  ∧ List.Chain' (fun a b => a ≤ b) (Tasks.generate_seo_content_async b1 b2 res2).1
  ∧ (Tasks.generate_seo_content_async b1 b2 res2).1.head? = some 0
  ∧ (∀ p ∈ (Tasks.generate_seo_content_async b1 b2 res2).1, p ≤ 90)
  ∧ List.Chain' (fun a b => a ≤ b) (Tasks.process_bulk_csv_async csvOk total)
  ∧ (Tasks.process_bulk_csv_async csvOk total).head? = some 0
  ∧ (∀ p ∈ Tasks.process_bulk_csv_async csvOk total, p ≤ 95) := by
  refine ⟨?_, ?_, ?_, ?_, ?_, ?_, ?_, ?_, ?_⟩
  · cases b1 <;> cases b2 <;> cases res <;>
      simp [Tasks.generate_ad_copy_async]
  · cases b1 <;> cases b2 <;> cases res <;> simp [Tasks.generate_ad_copy_async]
  · cases b1 <;> cases b2 <;> cases res <;>
      simp [Tasks.generate_ad_copy_async]
  · cases b1 <;> cases b2 <;> cases res2 <;>
      simp [Tasks.generate_seo_content_async]
  · cases b1 <;> cases b2 <;> cases res2 <;> simp [Tasks.generate_seo_content_async]
  · cases b1 <;> cases b2 <;> cases res2 <;>
      simp [Tasks.generate_seo_content_async]
  · cases csvOk
    · simp [Tasks.process_bulk_csv_async]
    · simp only [Tasks.process_bulk_csv_async, if_pos]
      rw [List.chain'_cons']
      refine ⟨fun y _ => Nat.zero_le y, ?_⟩
      rw [List.chain'_append]
      refine ⟨?_, by simp, ?_⟩
      · rw [List.chain'_map]
        cases total with
        | zero => simp
        | succ n =>
          rw [List.chain'_range_succ]
          intro m _
          exact bulkRowProgress_mono (n + 1) (Nat.le_succ m)
      · intro x hx y hy
        simp only [List.head?_cons, Option.mem_def, Option.some.injEq] at hy
        subst hy
        exact le_trans (bulk_map_le total x (memOfGetLastOpt hx)) (by omega)
  · cases csvOk <;> simp [Tasks.process_bulk_csv_async]
  · cases csvOk
    · simp [Tasks.process_bulk_csv_async]
    · intro p hp
      simp only [Tasks.process_bulk_csv_async, if_pos, List.mem_cons,
        List.mem_append, List.mem_map, List.mem_range] at hp
      rcases hp with h0 | ⟨i, hi, rfl⟩ | h95
      · omega
      · exact le_trans (bulkRowProgress_le total i hi) (by omega)
      · simp at h95
        omega
